import Mathlib

/-!
Shallow embedding of the `phper` core (src/phper/src/functions.rs and
src/phper/src/zend/api.rs) for checking the repository's specification.

Modelling conventions:
* Machine addresses (raw pointers) are natural numbers; `0` is the null pointer.
* The overloaded C `name` pointer field of an argument-info cell is modelled by the
  inductive `NameField`, recording which kind of value the bit pattern was produced
  from; `NameField.asPtrValue` is the reinterpretation of that bit pattern as an
  address.  A pointer to string data is always non-null; its exact address is not
  modelled and is represented by `1`.
* Memory holding `Callable` values is an explicit map `Nat → Callable`; dereferencing
  a non-null `*const Callable` is application of that map.
* `u32` casts from `usize` values are modelled by `% 2 ^ 32`; `usize`-to-pointer casts
  are width-preserving and are modelled without truncation.
* Rust panics (`expect`) are modelled by `Except.error` carrying the panic message.
* Side effects of the trampoline (engine warnings, invocations of the native closure)
  are recorded explicitly in the returned `InvokeResult`.
* The argument-info cell layout follows the PHP 7.2–7.4 `cfg` arm of
  `create_zend_arg_info` (`name`, `type_`, `pass_by_reference`, `is_variadic`); the
  8.0 arm differs only in dropping the pass-by-reference flag.
-/

namespace Phper

/-- Modelled from the spec: the dynamically-typed script `Value` abstraction
(`Val` lives in the repository's values module, which is not included under `src/`);
the spec treats it as a black box supporting "set to void/null".  Only a null
constructor and a few opaque payload carriers are needed. -/
inductive Val where
  | null
  | long (n : Int)
  | str (s : String)
deriving DecidableEq, Repr

/-- Modelled from the spec: the receiver-object abstraction (`Object::new(this, class)`
pairs the frame's receiver handle with a class-entry pointer; the objects module is not
included under `src/`). -/
structure Object where
  handle : Nat
  classEntry : Nat
deriving DecidableEq, Repr

/-- Constructor corresponding to `Object::new(execute_data.get_this(), class)`. -/
def Object.new (handle : Nat) (classEntry : Nat) : Object :=
  { handle := handle, classEntry := classEntry }

/-- The contents of the C `name` pointer field of a `zend_internal_arg_info` cell.
The source overloads this field: the header cell stores an integer cast to a pointer,
ordinary cells store a pointer to a NUL-terminated argument name, the zero-filled cell
stores the null pointer, and the sentinel cell stores a pointer to a `Callable`. -/
inductive NameField where
  | intAsPtr (n : Nat)
  | strPtr (s : String)
  | nullPtr
  | callablePtr (p : Nat)
deriving DecidableEq, Repr

/-- Reinterpretation of the `name` field's bit pattern as an address (the
`(*last_arg_info).name as *const Callable` cast in `invoke`, and the engine's
decoding of the header cell).  String data pointers are non-null; their exact
address is not modelled and is represented by `1`. -/
def NameField.asPtrValue : NameField → Nat
  | .intAsPtr n => n
  | .strPtr _ => 1
  | .nullPtr => 0
  | .callablePtr p => p

/-- `zend_internal_arg_info`, in the PHP 7.2–7.4 layout produced by
`create_zend_arg_info` in the source. -/
structure zend_internal_arg_info where
  name : NameField
  type_ : Nat
  pass_by_reference : Bool
  is_variadic : Bool
deriving DecidableEq, Repr

/-- `zeroed::<zend_internal_arg_info>()`: the all-zero cell. -/
def zeroed_arg_info : zend_internal_arg_info :=
  { name := NameField.nullPtr, type_ := 0, pass_by_reference := false, is_variadic := false }

/-- `create_zend_arg_info(name, pass_by_ref)` from the source (7.2–7.4 arm: zero type,
the given pass-by-reference flag, not variadic). -/
def create_zend_arg_info (name : NameField) (pass_by_ref : Bool) : zend_internal_arg_info :=
  { name := name, type_ := 0, pass_by_reference := pass_by_ref, is_variadic := false }

/-- The possible values of the C handler function pointer of a `zend_function_entry`:
the fixed trampoline `invoke` installed by this crate, or some other C function. -/
inductive zif_handler where
  | invoke
  | other (addr : Nat)
deriving DecidableEq, Repr

/-- `zend_function_entry` as built by `FunctionEntity::entry`: name pointer (modelled
by the string contents), optional handler function pointer, argument-info array
(modelled by the list of cells the leaked boxed slice holds), declared argument count
(a `u32`), and flags. -/
structure zend_function_entry where
  fname : String
  handler : Option zif_handler
  arg_info : List zend_internal_arg_info
  num_args : Nat
  flags : Nat
deriving DecidableEq, Repr

/-- `Argument` from the source: declared parameter name (NUL-terminated),
pass-by-reference flag, required flag. -/
structure Argument where
  name : String
  pass_by_ref : Bool
  required : Bool
deriving DecidableEq, Repr

/-- `Argument::by_val`: by-value, required; appends the NUL terminator. -/
def Argument.by_val (name : String) : Argument :=
  { name := name ++ "\x00", pass_by_ref := false, required := true }

/-- `Argument::by_ref`: by-reference, required; appends the NUL terminator. -/
def Argument.by_ref (name : String) : Argument :=
  { name := name ++ "\x00", pass_by_ref := true, required := true }

/-- `Argument::by_val_optional`: by-value, optional; appends the NUL terminator. -/
def Argument.by_val_optional (name : String) : Argument :=
  { name := name ++ "\x00", pass_by_ref := false, required := false }

/-- `Argument::by_ref_optional`: by-reference, optional; appends the NUL terminator. -/
def Argument.by_ref_optional (name : String) : Argument :=
  { name := name ++ "\x00", pass_by_ref := true, required := false }

/-- `Callable` from the source: either a boxed `Function` closure (mutates the
argument slice and the return slot) or a boxed `Method` closure together with the
lazily-resolved `AtomicPtr<ClassEntry>`.  The atomic cell is modelled by the class
pointer it holds at call time (`class_ptr`); the `SeqCst` load in `invoke` returns
this current contents. -/
inductive Callable where
  | function (f : List Val → Val → List Val × Val)
  | method (m : Object → List Val → Val → Object × List Val × Val) (class_ptr : Nat)

/-- `FunctionEntity` from the source: NUL-terminated name, the owned `Callable`, and
the declared argument list. -/
structure FunctionEntity where
  name : String
  handler : Callable
  arguments : List Argument

/-- `FunctionEntity::new`: appends the NUL terminator to the name. -/
def FunctionEntity.new (name : String) (handler : Callable) (arguments : List Argument) :
    FunctionEntity :=
  { name := name ++ "\x00", handler := handler, arguments := arguments }

/-- `self.arguments.iter().filter(|arg| arg.required).count()` from
`FunctionEntity::entry`. -/
def FunctionEntity.require_arg_count (self : FunctionEntity) : Nat :=
  (self.arguments.filter (fun arg => arg.required)).length

/-- `FunctionEntity::entry` from the source.  `handler_addr` models the address
`&self.handler` taken on line `last_arg_info.name = ((&self.handler) as *const _ as
*mut i8).cast()`; the leaked boxed slice is modelled by the `arg_info` list.  The
`num_args` field is `self.arguments.len() as u32`, a truncating cast. -/
def FunctionEntity.entry (self : FunctionEntity) (handler_addr : Nat) : zend_function_entry :=
  let require_arg_count := self.require_arg_count
  let infos : List zend_internal_arg_info :=
    create_zend_arg_info (NameField.intAsPtr require_arg_count) false
      :: self.arguments.map (fun arg => create_zend_arg_info (NameField.strPtr arg.name) arg.pass_by_ref)
      ++ [zeroed_arg_info, { zeroed_arg_info with name := NameField.callablePtr handler_addr }]
  { fname := self.name
  , handler := some zif_handler.invoke
  , arg_info := infos
  , num_args := self.arguments.length % 2 ^ 32
  , flags := 0 }

/-- Modelled from the spec: the opaque call frame (`ExecuteData`, from the repository's
values module, which is not included under `src/`).  It carries the declared argument
count, the declared required count, the declared argument-info array (as installed by
the engine: pointing one past the header cell), the actual argument values, and the
receiver handle. -/
structure ExecuteData where
  common_num_args : Nat
  common_required_num_args : Nat
  common_arg_info : List zend_internal_arg_info
  args : List Val
  this_handle : Nat
deriving DecidableEq, Repr

/-- Modelled from the spec: the frame's actual argument count; the engine invariant is
that it equals the number of actual argument slots in the frame. -/
def ExecuteData.num_args (self : ExecuteData) : Nat :=
  self.args.length

/-- Modelled from the spec: "materialize the actual arguments as a mutable slice of
`Value` sized to the actual argument count" (`ExecuteData::get_parameters_array`). -/
def ExecuteData.get_parameters_array (self : ExecuteData) : List Val :=
  self.args

/-- Modelled from the spec: the frame's receiver handle (`ExecuteData::get_this`). -/
def ExecuteData.get_this (self : ExecuteData) : Nat :=
  self.this_handle

/-- The engine's `E_WARNING` severity constant (value from the engine headers; no
claim depends on the value itself). -/
def E_WARNING : Nat := 2

/-- The warning message built in `invoke`:
`format!("expects at least {} parameter(s), {} given\0", required, given)`.  The
trailing NUL is the C string terminator included by the source format string. -/
def arity_error_message (required : Nat) (given : Nat) : String :=
  s!"expects at least {required} parameter(s), {given} given\x00"

/-- One recorded invocation of a native closure by the trampoline: a `Function`
closure receives only the argument slice (never a receiver), a `Method` closure
receives the constructed receiver and the argument slice. -/
inductive CallEvent where
  | functionCall (arguments : List Val)
  | methodCall (receiver : Object) (arguments : List Val)
deriving DecidableEq, Repr

/-- The argument slice a recorded closure invocation was passed. -/
def CallEvent.arguments : CallEvent → List Val
  | .functionCall a => a
  | .methodCall _ a => a

/-- The observable outcome of one trampoline run: warnings emitted through
`php_error_docref1` (severity with message), the closure invocations performed, and
the final contents of the return slot. -/
structure InvokeResult where
  warnings : List (Nat × String)
  calls : List CallEvent
  ret : Val
deriving DecidableEq, Repr

/-- Lines 161–165 of `invoke`: read the frame's declared count and argument-info
array, index the cell at offset `num_args + 1`, and reinterpret its `name` field as a
`*const Callable`.  Out-of-range indexing is modelled by the zeroed cell (whose
reinterpretation is null). -/
def recovered_handler_ptr (execute_data : ExecuteData) : Nat :=
  ((execute_data.common_arg_info.getD (execute_data.common_num_args + 1) zeroed_arg_info).name).asPtrValue

/-- The trampoline `invoke` from the source.  `heap` models memory holding `Callable`
values (dereferencing a non-null `*const Callable`); `return_value` is the incoming
contents of the return slot.  The `expect("handler is null")` panic is the
`Except.error` case. -/
def invoke (heap : Nat → Callable) (execute_data : ExecuteData) (return_value : Val) :
    Except String InvokeResult :=
  let handler_ptr := recovered_handler_ptr execute_data
  if handler_ptr = 0 then
    Except.error "handler is null"
  else
    let handler := heap handler_ptr
    if execute_data.num_args < execute_data.common_required_num_args then
      let s := arity_error_message execute_data.common_required_num_args execute_data.num_args
      Except.ok { warnings := [(E_WARNING, s)], calls := [], ret := Val.null }
    else
      let arguments := execute_data.get_parameters_array
      match handler with
      | Callable.function f =>
        let fr := f arguments return_value
        Except.ok { warnings := [], calls := [CallEvent.functionCall arguments], ret := fr.2 }
      | Callable.method m class_ptr =>
        let this := Object.new execute_data.get_this (class_ptr)
        let mr := m this arguments return_value
        Except.ok { warnings := [], calls := [CallEvent.methodCall this arguments], ret := mr.2.2 }

/-- Modelled from the spec: the host engine's registration-and-call contract (spec
sections 2 and 6).  At module registration the engine stores the record's `num_args`
as the declared count, decodes the required count from the header cell's `name` field,
and keeps the function's argument-info pointer one past the header cell; at call time
it hands the trampoline a frame carrying those together with the actual arguments and
the receiver handle. -/
def engine_frame (fe : zend_function_entry) (args : List Val) (this_handle : Nat) :
    ExecuteData :=
  { common_num_args := fe.num_args
  , common_required_num_args := ((fe.arg_info.headD zeroed_arg_info).name).asPtrValue
  , common_arg_info := fe.arg_info.drop 1
  , args := args
  , this_handle := this_handle }

/-- `ModuleGlobals<T>` from `zend/api.rs`: an interior-mutable cell holding one value.
`UnsafeCell` is `repr(transparent)` and `ModuleGlobals` is `repr(C)`, so the interior
pointer returned by `get` is the cell's own address, modelled by `addr`. -/
structure ModuleGlobals (T : Type) where
  inner : T
  addr : Nat

/-- `ModuleGlobals::new`. -/
def ModuleGlobals.new {T : Type} (inner : T) (addr : Nat) : ModuleGlobals T :=
  { inner := inner, addr := addr }

/-- `ModuleGlobals::get`: the raw pointer to the interior value. -/
def ModuleGlobals.get {T : Type} (self : ModuleGlobals T) : Nat :=
  self.addr

/-- Reinterpretation of a `u32` value as a C `int` (the `modifiable as c_int` cast). -/
def u32_as_c_int (n : Nat) : Int :=
  if n % 2 ^ 32 < 2 ^ 31 then (n % 2 ^ 32 : Int) else (n % 2 ^ 32 : Int) - 2 ^ 32

/-- `zend_ini_entry_def` as built by `ModuleGlobals::create_ini_entry_def`: name
pointer (modelled by the string contents), change hook, three opaque hook-argument
pointer slots, default value pointer (modelled by the string contents), displayer
hook, mutability flags, and the `u32` name/value byte lengths.  The hooks are opaque
C function pointers, modelled by `Option Nat`. -/
structure zend_ini_entry_def where
  name : String
  on_modify : Option Nat
  mh_arg1 : Nat
  mh_arg2 : Nat
  mh_arg3 : Nat
  value : String
  displayer : Option Nat
  modifiable : Int
  name_length : Nat
  value_length : Nat
deriving DecidableEq, Repr

/-- `ModuleGlobals::create_ini_entry_def` from the source.  `name.len()` and
`default_value.len()` are Rust byte lengths (`utf8ByteSize`), cast to `u32`. -/
def ModuleGlobals.create_ini_entry_def {T : Type} (self : ModuleGlobals T)
    (name : String) (default_value : String) (on_modify : Option Nat) (modifiable : Nat) :
    zend_ini_entry_def :=
  { name := name
  , on_modify := on_modify
  , mh_arg1 := 0
  , mh_arg2 := self.get
  , mh_arg3 := 0
  , value := default_value
  , displayer := none
  , modifiable := u32_as_c_int modifiable
  , name_length := name.utf8ByteSize % 2 ^ 32
  , value_length := default_value.utf8ByteSize % 2 ^ 32 }

/-- `FunctionEntries<N>` from `zend/api.rs`: an interior-mutable cell holding an array
of `zend_function_entry` records.  The const-generic length is the length of the
modelled list; `addr` is the address at which the array is placed. -/
structure FunctionEntries where
  inner : List zend_function_entry
  addr : Nat

/-- `FunctionEntries::new`. -/
def FunctionEntries.new (inner : List zend_function_entry) (addr : Nat) : FunctionEntries :=
  { inner := inner, addr := addr }

/-- `FunctionEntries::get`: `self.inner.get().cast()` — the pointer to the array,
cast to a pointer to its first element. -/
def FunctionEntries.get (self : FunctionEntries) : Nat :=
  self.addr

/-- C array layout: element `i` of an array of elements of byte size `size` placed at
`addr` lives at `addr + i * size`. -/
def FunctionEntries.elem_addr (self : FunctionEntries) (i : Nat) (size : Nat) : Nat :=
  self.addr + i * size

end Phper

namespace Phper

/-! ### Shared concrete fixtures and helper lemmas -/

/-- A concrete `Function`-kind `Callable` used by witnesses. -/
def c0 : Callable := Callable.function (fun arguments return_value => (arguments, return_value))

/-- A concrete `Method`-kind `Callable` used by witnesses; its class cell holds `42`. -/
def m0 : Callable := Callable.method (fun this arguments _ => (this, arguments, Val.long 5)) 42

/-- A concrete entity with two required by-value arguments, used by witnesses. -/
def e0 : FunctionEntity := FunctionEntity.new "f" c0 [Argument.by_val "x", Argument.by_val "y"]

/-- A frame whose sentinel cell is zero-filled (null sentinel pointer). -/
def ed_null_sentinel : ExecuteData :=
  { common_num_args := 0
  , common_required_num_args := 0
  , common_arg_info := [zeroed_arg_info, zeroed_arg_info]
  , args := []
  , this_handle := 0 }

/-- A frame whose sentinel cell carries the `Callable` address `7`, with one actual
argument and receiver handle `9`. -/
def ed_method : ExecuteData :=
  { common_num_args := 0
  , common_required_num_args := 0
  , common_arg_info := [zeroed_arg_info, { zeroed_arg_info with name := NameField.callablePtr 7 }]
  , args := [Val.long 3]
  , this_handle := 9 }

/-- A frame with the same declared argument-info array and declared count as
`ed_other_actuals` but no actual arguments and receiver handle `0`. -/
def ed_no_actuals : ExecuteData :=
  { common_num_args := 0
  , common_required_num_args := 0
  , common_arg_info := [zeroed_arg_info, { zeroed_arg_info with name := NameField.callablePtr 7 }]
  , args := []
  , this_handle := 0 }

/-- Same declared data as `ed_no_actuals`, different actual arguments and receiver. -/
def ed_other_actuals : ExecuteData :=
  { common_num_args := 0
  , common_required_num_args := 0
  , common_arg_info := [zeroed_arg_info, { zeroed_arg_info with name := NameField.callablePtr 7 }]
  , args := [Val.long 1, Val.str "x"]
  , this_handle := 33 }

/-- An entity with 2^32 declared arguments, exhibiting the truncating `u32` cast in
`FunctionEntity::entry`. -/
def big_entity : FunctionEntity :=
  { name := "f\x00"
  , handler := Callable.function (fun arguments return_value => (arguments, return_value))
  , arguments := List.replicate (2 ^ 32) (Argument.by_val "a") }

/-- A 2^32-byte ASCII string, exhibiting the truncating `u32` casts in
`ModuleGlobals::create_ini_entry_def`. -/
def big_name : String := String.mk (List.replicate (2 ^ 32) 'a')

/-- A concrete globals cell placed at address `100`, used by witnesses. -/
def g0 : ModuleGlobals Nat := ModuleGlobals.new 42 100

/-- A concrete configuration name used by the C9 witness. -/
def ini_name : String := "abc"

/-- A concrete configuration default value used by the C9 witness. -/
def ini_value : String := "1"

theorem getD_append_pair {α : Type} (l : List α) (z s d : α) :
    (l ++ [z, s]).getD (l.length + 1) d = s := by
  induction l with
  | nil => rfl
  | cons x xs ih => simpa using ih

/-- The trampoline's sentinel lookup on a frame the engine built from
`FunctionEntity::entry` recovers exactly the embedded `&self.handler` address,
provided the `u32` declared count did not truncate. -/
theorem recovered_ptr_of_entry (e : FunctionEntity) (addr : Nat) (args : List Val)
    (this_handle : Nat) (hD : e.arguments.length < 2 ^ 32) :
    recovered_handler_ptr (engine_frame (e.entry addr) args this_handle) = addr := by
  show (((e.arguments.map fun arg => create_zend_arg_info (NameField.strPtr arg.name) arg.pass_by_ref)
        ++ [zeroed_arg_info, { zeroed_arg_info with name := NameField.callablePtr addr }]).getD
        (e.arguments.length % 2 ^ 32 + 1) zeroed_arg_info).name.asPtrValue = addr
  rw [Nat.mod_eq_of_lt hD]
  rw [show e.arguments.length
        = (e.arguments.map fun arg =>
            create_zend_arg_info (NameField.strPtr arg.name) arg.pass_by_ref).length
      from (List.length_map _ _).symm]
  rw [getD_append_pair]
  rfl

theorem engine_frame_required_of_entry (e : FunctionEntity) (addr : Nat) (args : List Val)
    (this_handle : Nat) :
    (engine_frame (e.entry addr) args this_handle).common_required_num_args
      = e.require_arg_count := rfl

theorem engine_frame_num_args (fe : zend_function_entry) (args : List Val)
    (this_handle : Nat) :
    (engine_frame fe args this_handle).num_args = args.length := rfl

/-- Claim C1. -/
theorem invoke_arity_undercount (heap : Nat → Callable) (e : FunctionEntity) (addr : Nat)
    (args : List Val) (this_handle : Nat) (return_value : Val)
    (hD : e.arguments.length < 2 ^ 32) (haddr : addr ≠ 0)
    (hA : args.length < e.require_arg_count) :
    invoke heap (engine_frame (e.entry addr) args this_handle) return_value =
      Except.ok { warnings := [(E_WARNING, arity_error_message e.require_arg_count args.length)]
                , calls := []
                , ret := Val.null } := by
  have hrec := recovered_ptr_of_entry e addr args this_handle hD
  unfold invoke
  rw [hrec]
  simp only [haddr, if_false, engine_frame_required_of_entry, engine_frame_num_args]
  rw [if_pos hA]

end Phper

namespace Phper

/-- Claim C1 (witness): registration requiring 2 arguments, called with 1 actual
argument: one warning "expects at least 2 parameter(s), 1 given", void return, no
closure invocation. -/
theorem invoke_arity_undercount_witness :
    invoke (fun _ => c0) (engine_frame (e0.entry 5) [Val.long 1] 0) Val.null =
      Except.ok { warnings := [(E_WARNING, arity_error_message 2 1)]
                , calls := []
                , ret := Val.null } :=
  invoke_arity_undercount (fun _ => c0) e0 5 [Val.long 1] 0 Val.null
    (by decide) (by decide) (by decide)

/-- Claim C2: with `A >= R` actual arguments (including `A > D`) the trampoline
invokes the registration's native closure exactly once, passing the argument slice of
the actual arguments (hence of length `A`, not `D`). -/
theorem invoke_dispatch_enough_args (heap : Nat → Callable) (e : FunctionEntity)
    (addr : Nat) (args : List Val) (this_handle : Nat) (return_value : Val)
    (hD : e.arguments.length < 2 ^ 32) (haddr : addr ≠ 0)
    (_hheap : heap addr = e.handler)
    (hA : e.require_arg_count ≤ args.length) :
    ∃ r, invoke heap (engine_frame (e.entry addr) args this_handle) return_value
        = Except.ok r ∧
      r.calls.length = 1 ∧ ∀ ev ∈ r.calls, ev.arguments = args := by
  have hrec := recovered_ptr_of_entry e addr args this_handle hD
  unfold invoke
  rw [hrec]
  simp only [haddr, if_false, engine_frame_required_of_entry, engine_frame_num_args]
  rw [if_neg (Nat.not_lt.mpr hA)]
  cases hc : heap addr with
  | function f =>
    refine ⟨_, rfl, rfl, ?_⟩
    intro ev hev
    simp only [List.mem_singleton] at hev
    subst hev
    rfl
  | method m class_ptr =>
    refine ⟨_, rfl, rfl, ?_⟩
    intro ev hev
    simp only [List.mem_singleton] at hev
    subst hev
    rfl

/-- Claim C2 (witness): registration with 2 declared (both required) arguments,
called with 3 actual arguments: the closure is invoked once with the 3-element
slice. -/
theorem invoke_dispatch_enough_args_witness :
    ∃ r, invoke (fun _ => c0)
          (engine_frame (e0.entry 5) [Val.long 1, Val.long 2, Val.long 3] 0) Val.null
        = Except.ok r ∧
      r.calls.length = 1 ∧ ∀ ev ∈ r.calls, ev.arguments = [Val.long 1, Val.long 2, Val.long 3] :=
  invoke_dispatch_enough_args (fun _ => c0) e0 5 [Val.long 1, Val.long 2, Val.long 3] 0
    Val.null (by decide) (by decide) rfl (by decide)

/-- Claim C3: the entity built from `[by_val "a", by_ref_optional "b"]` yields an
info array whose header encodes required count 1, whose two argument cells follow in
declared order ("a" by-value, then "b" by-reference), and whose sentinel cell's name
field reinterprets to exactly the address of the entity's own `Callable`
(`handler_addr` models `&self.handler`). -/
theorem entry_round_trip (c : Callable) (addr : Nat) :
    ((FunctionEntity.new "f" c [Argument.by_val "a", Argument.by_ref_optional "b"]).entry addr).arg_info
      = [ create_zend_arg_info (NameField.intAsPtr 1) false
        , create_zend_arg_info (NameField.strPtr "a\x00") false
        , create_zend_arg_info (NameField.strPtr "b\x00") true
        , zeroed_arg_info
        , { zeroed_arg_info with name := NameField.callablePtr addr } ] ∧
    (((FunctionEntity.new "f" c [Argument.by_val "a", Argument.by_ref_optional "b"]).entry addr).arg_info.getD
        4 zeroed_arg_info).name.asPtrValue = addr :=
  ⟨rfl, rfl⟩

/-- Claim C4: a null sentinel pointer makes the trampoline fail fatally (the `expect`
panic, modelled by `Except.error "handler is null"`); it never continues. -/
theorem invoke_null_sentinel_panics (heap : Nat → Callable) (execute_data : ExecuteData)
    (return_value : Val) (h : recovered_handler_ptr execute_data = 0) :
    invoke heap execute_data return_value = Except.error "handler is null" := by
  unfold invoke
  rw [h, if_pos rfl]

/-- Claim C4 (witness): a frame whose sentinel cell is zero-filled panics. -/
theorem invoke_null_sentinel_panics_witness :
    invoke (fun _ => c0) ed_null_sentinel Val.null = Except.error "handler is null" :=
  invoke_null_sentinel_panics (fun _ => c0) ed_null_sentinel Val.null rfl

/-- Claim C5: on dispatch, a `Function`-kind `Callable` is invoked with only the
argument slice and return slot (no receiver), while a `Method`-kind `Callable` is
invoked with a receiver built from the frame's receiver handle and the class pointer
currently held by its lazily-resolved class cell (the `SeqCst` load returns the cell's
current contents). -/
theorem invoke_dispatch_kinds (heap : Nat → Callable) (execute_data : ExecuteData)
    (return_value : Val)
    (hptr : recovered_handler_ptr execute_data ≠ 0)
    (hA : execute_data.common_required_num_args ≤ execute_data.num_args) :
    (∀ f, heap (recovered_handler_ptr execute_data) = Callable.function f →
        invoke heap execute_data return_value =
          Except.ok { warnings := []
                    , calls := [CallEvent.functionCall execute_data.args]
                    , ret := (f execute_data.args return_value).2 }) ∧
    (∀ m class_ptr, heap (recovered_handler_ptr execute_data) = Callable.method m class_ptr →
        invoke heap execute_data return_value =
          Except.ok { warnings := []
                    , calls := [CallEvent.methodCall
                        (Object.new execute_data.this_handle class_ptr) execute_data.args]
                    , ret := (m (Object.new execute_data.this_handle class_ptr)
                        execute_data.args return_value).2.2 }) := by
  constructor
  · intro f hf
    unfold invoke
    simp only [hptr, if_false]
    rw [if_neg (Nat.not_lt.mpr hA), hf]
    rfl
  · intro m class_ptr hm
    unfold invoke
    simp only [hptr, if_false]
    rw [if_neg (Nat.not_lt.mpr hA), hm]
    rfl

/-- Claim C5 (witness): a `Method` `Callable` whose class cell holds `42`, called on a
frame with receiver handle `9`, receives the receiver `Object.new 9 42`. -/
theorem invoke_dispatch_kinds_witness :
    invoke (fun _ => m0) ed_method Val.null =
      Except.ok { warnings := []
                , calls := [CallEvent.methodCall (Object.new 9 42) [Val.long 3]]
                , ret := Val.long 5 } :=
  (invoke_dispatch_kinds (fun _ => m0) ed_method Val.null (by decide) (by decide)).2
    (fun this arguments _ => (this, arguments, Val.long 5)) 42 rfl

/-- The `num_args` field of any record built by `entry` is the `u32`-truncated
declared arity. -/
theorem entry_num_args_eq (e : FunctionEntity) (addr : Nat) :
    (e.entry addr).num_args = e.arguments.length % 2 ^ 32 := rfl

theorem big_entity_arguments :
    big_entity.arguments = List.replicate (2 ^ 32) (Argument.by_val "a") := rfl

/-- Claim C6 (counterexample): for an entity with 2^32 declared arguments the
`num_args` field of the record is `0`, not the declared arity — the field is a
truncating `u32` cast. -/
theorem entry_num_args_truncation_counterexample :
    ¬ (((big_entity.entry 1).handler = some zif_handler.invoke) ∧
        (big_entity.entry 1).num_args = big_entity.arguments.length) := by
  intro h
  have h2 := h.2
  rw [entry_num_args_eq, big_entity_arguments, List.length_replicate] at h2
  norm_num at h2

/-- Claim C6 (amended): the handler field of every record is the fixed trampoline,
and whenever the declared arity fits in a `u32` the `num_args` field equals it. -/
theorem entry_handler_trampoline_num_args (e : FunctionEntity) (addr : Nat)
    (hD : e.arguments.length < 2 ^ 32) :
    (e.entry addr).handler = some zif_handler.invoke ∧
    (e.entry addr).num_args = e.arguments.length := by
  refine ⟨rfl, ?_⟩
  show e.arguments.length % 2 ^ 32 = e.arguments.length
  exact Nat.mod_eq_of_lt hD

/-- Claim C6 (witness): a two-argument entity has the trampoline handler and
`num_args = 2`. -/
theorem entry_handler_trampoline_num_args_witness :
    (e0.entry 5).handler = some zif_handler.invoke ∧ (e0.entry 5).num_args = 2 :=
  entry_handler_trampoline_num_args e0 5 (by decide)

/-- Claim C7: the leaked info array is header cell, the declared argument cells in
order, a zero-filled cell, and the sentinel carrying the `Callable` address — exactly
`D + 3` cells. -/
theorem entry_info_array_layout (e : FunctionEntity) (addr : Nat) :
    (e.entry addr).arg_info
      = create_zend_arg_info (NameField.intAsPtr e.require_arg_count) false
          :: (e.arguments.map fun arg =>
                create_zend_arg_info (NameField.strPtr arg.name) arg.pass_by_ref)
          ++ [zeroed_arg_info, { zeroed_arg_info with name := NameField.callablePtr addr }] ∧
    (e.entry addr).arg_info.length = e.arguments.length + 3 := by
  refine ⟨rfl, ?_⟩
  show (create_zend_arg_info (NameField.intAsPtr e.require_arg_count) false
          :: (e.arguments.map fun arg =>
                create_zend_arg_info (NameField.strPtr arg.name) arg.pass_by_ref)
          ++ [zeroed_arg_info, { zeroed_arg_info with name := NameField.callablePtr addr }]).length
      = e.arguments.length + 3
  simp only [List.length_cons, List.length_append, List.length_map, List.length_nil]

/-- Claim C8: the recovered `Callable` pointer is a function of the frame's declared
argument-info array and declared count only. -/
theorem recovered_handler_deterministic (ed1 ed2 : ExecuteData)
    (hinfo : ed1.common_arg_info = ed2.common_arg_info)
    (hnum : ed1.common_num_args = ed2.common_num_args) :
    recovered_handler_ptr ed1 = recovered_handler_ptr ed2 := by
  unfold recovered_handler_ptr
  rw [hinfo, hnum]

/-- Claim C8 (witness): two frames sharing declared data but differing in actual
arguments and receiver handle recover the same pointer. -/
theorem recovered_handler_deterministic_witness :
    recovered_handler_ptr ed_no_actuals = recovered_handler_ptr ed_other_actuals :=
  recovered_handler_deterministic ed_no_actuals ed_other_actuals rfl rfl

theorem utf8ByteSize_go_replicate (n : Nat) (c : Char) :
    String.utf8ByteSize.go (List.replicate n c) = n * c.utf8Size := by
  induction n with
  | zero => simp [List.replicate_zero, String.utf8ByteSize.go]
  | succ k ih =>
    show String.utf8ByteSize.go (List.replicate k c) + c.utf8Size = (k + 1) * c.utf8Size
    rw [ih, Nat.succ_mul]

/-- Claim C9 (counterexample): for a 2^32-byte name the `name_length` field is `0`,
not the byte length — the field is a truncating `u32` cast. -/
theorem utf8ByteSize_mk (l : List Char) :
    (String.mk l).utf8ByteSize = String.utf8ByteSize.go l := rfl

theorem create_ini_entry_def_name_length {T : Type} (g : ModuleGlobals T)
    (name default_value : String) (on_modify : Option Nat) (modifiable : Nat) :
    (g.create_ini_entry_def name default_value on_modify modifiable).name_length
      = name.utf8ByteSize % 2 ^ 32 := rfl

theorem big_name_eq : big_name = String.mk (List.replicate (2 ^ 32) 'a') := rfl

theorem create_ini_entry_def_length_counterexample :
    ¬ ((g0.create_ini_entry_def big_name "x" none 1).name_length = big_name.utf8ByteSize) := by
  have hsize : big_name.utf8ByteSize = 2 ^ 32 := by
    rw [big_name_eq, utf8ByteSize_mk, utf8ByteSize_go_replicate,
      show ('a').utf8Size = 1 by decide]
    norm_num
  intro h
  rw [create_ini_entry_def_name_length, hsize] at h
  norm_num at h

/-- Claim C9 (amended): the configuration descriptor holds the given hook, the cell's
interior address (the pointer `get` returns) in `mh_arg2`, null in `mh_arg1` and
`mh_arg3`, no displayer, and — whenever they fit in a `u32` — the byte lengths of the
name and default value. -/
theorem create_ini_entry_def_fields {T : Type} (g : ModuleGlobals T)
    (name default_value : String) (on_modify : Option Nat) (modifiable : Nat)
    (hn : name.utf8ByteSize < 2 ^ 32) (hv : default_value.utf8ByteSize < 2 ^ 32) :
    (g.create_ini_entry_def name default_value on_modify modifiable).on_modify = on_modify ∧
    (g.create_ini_entry_def name default_value on_modify modifiable).mh_arg2 = g.get ∧
    (g.create_ini_entry_def name default_value on_modify modifiable).mh_arg1 = 0 ∧
    (g.create_ini_entry_def name default_value on_modify modifiable).mh_arg3 = 0 ∧
    (g.create_ini_entry_def name default_value on_modify modifiable).displayer = none ∧
    (g.create_ini_entry_def name default_value on_modify modifiable).name_length = name.utf8ByteSize ∧
    (g.create_ini_entry_def name default_value on_modify modifiable).value_length = default_value.utf8ByteSize := by
  refine ⟨rfl, rfl, rfl, rfl, rfl, ?_, ?_⟩
  · show name.utf8ByteSize % 2 ^ 32 = name.utf8ByteSize
    exact Nat.mod_eq_of_lt hn
  · show default_value.utf8ByteSize % 2 ^ 32 = default_value.utf8ByteSize
    exact Nat.mod_eq_of_lt hv

/-- Claim C9 (witness): a concrete binding on the cell at address 100 with name
"abc" and default "1". -/
theorem create_ini_entry_def_fields_witness :
    (g0.create_ini_entry_def ini_name ini_value (some 7) 3).on_modify = some 7 ∧
    (g0.create_ini_entry_def ini_name ini_value (some 7) 3).mh_arg2 = g0.get ∧
    (g0.create_ini_entry_def ini_name ini_value (some 7) 3).mh_arg1 = 0 ∧
    (g0.create_ini_entry_def ini_name ini_value (some 7) 3).mh_arg3 = 0 ∧
    (g0.create_ini_entry_def ini_name ini_value (some 7) 3).displayer = none ∧
    (g0.create_ini_entry_def ini_name ini_value (some 7) 3).name_length = ini_name.utf8ByteSize ∧
    (g0.create_ini_entry_def ini_name ini_value (some 7) 3).value_length = ini_value.utf8ByteSize :=
  create_ini_entry_def_fields g0 ini_name ini_value (some 7) 3 (by decide) (by decide)

/-- Claim C10: construction stores the record array unchanged, and `get` returns the
address of element 0 of the stored array (the array's own base address). -/
theorem function_entries_contract (a : List zend_function_entry) (addr size : Nat) :
    (FunctionEntries.new a addr).inner = a ∧
    (FunctionEntries.new a addr).get = (FunctionEntries.new a addr).elem_addr 0 size := by
  refine ⟨rfl, ?_⟩
  show addr = addr + 0 * size
  simp

end Phper
